import Mathlib

/-!
Verification of the part-4 Flask REST API (src/part-4/app.py) against its
natural-language specification.

The store is embedded as explicit state: a `DB` holds the author and book
tables as lists in insertion order.  Each HTTP route becomes a Lean function
from the current `DB` (plus the parsed request data) to an `ApiResult` and,
for mutating routes, the next `DB`.  Request bodies parsed by
`request.get_json()` are `Option` values (`none` models a null body);
partial-update payloads use one `Option` per key to model the
`if key in data` presence checks.  Python unhandled exceptions are the
`pyRaise` constructor; `get_or_404` aborts are the `abort` constructor
(the framework default error page, distinct from a `jsonify` envelope).
The SQLite backend enforces the UNIQUE constraint on `Book.isbn` at commit
time but does not enforce the declared foreign key `Book.author_id`
(SQLite leaves foreign-key enforcement off unless a pragma enables it,
and the application never does); commits therefore fail exactly on an
isbn conflict, which surfaces as an unhandled IntegrityError.
-/

namespace FlaskApi

/-- A row of the `author` table: id, name (NOT NULL), bio, city
(app.py lines 34-38). -/
structure Author where
  id : Int
  name : String
  bio : Option String
  city : Option String
deriving Repr, DecidableEq

/-- A row of the `book` table: id, title (NOT NULL), year, isbn (UNIQUE),
created_at (modelled as an abstract timestamp), author_id
(app.py lines 52-60). -/
structure Book where
  id : Int
  title : String
  year : Option Int
  isbn : Option String
  created_at : Option Nat
  author_id : Int
deriving Repr, DecidableEq

/-- The persistent store: both tables, rows in insertion order. -/
structure DB where
  authors : List Author
  books : List Book
deriving Repr, DecidableEq

/-- Serialized Author (`Author.to_dict`, app.py lines 43-50): scalar fields
plus the titles of the books whose author_id matches. -/
structure AuthorDict where
  id : Int
  name : String
  bio : Option String
  city : Option String
  books : List String
deriving Repr, DecidableEq

/-- Serialized Book (`Book.to_dict`, app.py lines 62-70). -/
structure BookDict where
  id : Int
  title : String
  author_id : Int
  year : Option Int
  isbn : Option String
  created_at : Option Nat
deriving Repr, DecidableEq

/-- The books owned by an author: the `books` relationship resolves to the
rows whose `author_id` equals the author id, in insertion order
(app.py line 41). -/
def ownedBooks (db : DB) (a : Author) : List Book :=
  db.books.filter (fun b => b.author_id == a.id)

/-- `Author.to_dict` (app.py lines 43-50). -/
def authorToDict (db : DB) (a : Author) : AuthorDict :=
  { id := a.id, name := a.name, bio := a.bio, city := a.city,
    books := (ownedBooks db a).map (fun b => b.title) }

/-- `Book.to_dict` (app.py lines 62-70). -/
def bookToDict (b : Book) : BookDict :=
  { id := b.id, title := b.title, author_id := b.author_id,
    year := b.year, isbn := b.isbn, created_at := b.created_at }

/-- The JSON payload carried by a successful response. -/
inductive Payload where
  | authorOne (a : AuthorDict)
  | authorList (count : Nat) (authors : List AuthorDict)
  | bookOne (b : BookDict)
  | bookList (count : Nat) (books : List BookDict)
  | message (s : String)
deriving Repr, DecidableEq

/-- Outcome of one request.
`ok` and `errEnvelope` are `jsonify` responses (the latter is the
`\x7bsuccess: false, error: msg\x7d` envelope); `abort` is a framework abort
such as `get_or_404`, whose body is the framework default error page, not
an envelope; `pyRaise` is an unhandled Python exception, surfaced by the
framework as a generic 500 error. -/
inductive ApiResult where
  | ok (status : Nat) (body : Payload)
  | errEnvelope (status : Nat) (error : String)
  | abort (status : Nat)
  | pyRaise (exc : String)
deriving Repr, DecidableEq

/-- The HTTP status code of a result (unhandled exceptions become 500). -/
def httpStatus : ApiResult → Nat
  | .ok s _ => s
  | .errEnvelope s _ => s
  | .abort s => s
  | .pyRaise _ => 500

/-- Whether the response body is the failure envelope
`\x7bsuccess: false, error: msg\x7d`. -/
def isErrEnvelope : ApiResult → Bool
  | .errEnvelope _ _ => true
  | _ => false

/-- Whether the response is a `\x7bsuccess: true, ...\x7d` payload. -/
def isSuccess : ApiResult → Bool
  | .ok _ _ => true
  | _ => false

/-- True when some author row has the given id (`Author.query.get`). -/
def authorExists (db : DB) (id : Int) : Bool :=
  db.authors.any (fun a => a.id == id)

/-- True when some book row has the given id (`Book.query.get`). -/
def bookExists (db : DB) (id : Int) : Bool :=
  db.books.any (fun b => b.id == id)

/-- `Author.query.get(id)`: the row with this primary key, if any. -/
def findAuthor (db : DB) (id : Int) : Option Author :=
  db.authors.find? (fun a => a.id == id)

/-- `Book.query.get(id)`: the row with this primary key, if any. -/
def findBook (db : DB) (id : Int) : Option Book :=
  db.books.find? (fun b => b.id == id)

/-- The id SQLite assigns to a fresh author row: one more than the largest
existing rowid (0 when the table is empty). -/
def nextAuthorId (db : DB) : Int :=
  (db.authors.map (fun a => a.id)).foldl max 0 + 1

/-- The id SQLite assigns to a fresh book row. -/
def nextBookId (db : DB) : Int :=
  (db.books.map (fun b => b.id)).foldl max 0 + 1

/-- True when inserting or updating a row to carry this isbn violates the
UNIQUE constraint on `book.isbn` (app.py line 56): some other row already
carries the same non-null isbn.  `selfId` is the id of the row being
written, which may keep its own isbn. -/
def isbnConflict (db : DB) (selfId : Int) (isbn : Option String) : Bool :=
  match isbn with
  | none => false
  | some s => db.books.any (fun b => b.id != selfId && b.isbn == some s)

/-- Parsed JSON body of `POST /api/authors`; each field is `none` when the
key is absent from the body (`data.get`). -/
structure AuthorCreate where
  name : Option String
  bio : Option String
  city : Option String
deriving Repr, DecidableEq

/-- Parsed JSON body of `PUT /api/authors/(id)`.  The outer `Option` on each
field models the `if key in data` presence check; for the nullable columns
bio and city the inner `Option` is the JSON value (null allowed). -/
structure AuthorPatch where
  name : Option String
  bio : Option (Option String)
  city : Option (Option String)
deriving Repr, DecidableEq

/-- Parsed JSON body of `POST /api/books`; `data.get` collapses an absent
key and a null value to `none`. -/
structure BookCreate where
  title : Option String
  author_id : Option Int
  year : Option Int
  isbn : Option String
deriving Repr, DecidableEq

/-- Parsed JSON body of `PUT /api/books/(id)`: one `Option` per key for the
presence check, with a nested `Option` for the nullable columns year and
isbn. -/
structure BookPatch where
  title : Option String
  author_id : Option Int
  year : Option (Option Int)
  isbn : Option (Option String)
deriving Repr, DecidableEq

/-- `GET /api/authors` (app.py lines 76-79). -/
def get_authors (db : DB) : ApiResult :=
  .ok 200 (.authorList db.authors.length (db.authors.map (authorToDict db)))

/-- `GET /api/authors/(id)` (app.py lines 81-84): `get_or_404` aborts with
the framework 404 page when the id is absent. -/
def get_author (db : DB) (id : Int) : ApiResult :=
  match findAuthor db id with
  | none => .abort 404
  | some a => .ok 200 (.authorOne (authorToDict db a))

/-- `POST /api/authors` (app.py lines 86-95).  `not data or not
data.get('name')` rejects a null body and a missing or empty name with 400;
otherwise the row is inserted with the next id. -/
def create_author (db : DB) (data : Option AuthorCreate) :
    ApiResult × DB :=
  match data with
  | none => (.errEnvelope 400 "Name is required", db)
  | some d =>
    match d.name with
    | none => (.errEnvelope 400 "Name is required", db)
    | some nm =>
      if nm = "" then (.errEnvelope 400 "Name is required", db)
      else
        let a : Author :=
          { id := nextAuthorId db, name := nm, bio := d.bio, city := d.city }
        let db' : DB := { db with authors := db.authors ++ [a] }
        (.ok 201 (.authorOne (authorToDict db' a)), db')

/-- The in-place field updates of `update_author` (app.py lines 102-104):
each field present in the body overwrites the column, all others keep
their stored value. -/
def applyAuthorPatch (p : AuthorPatch) (a : Author) : Author :=
  { a with
    name := match p.name with | some v => v | none => a.name
    bio := match p.bio with | some v => v | none => a.bio
    city := match p.city with | some v => v | none => a.city }

/-- `PUT /api/authors/(id)` (app.py lines 97-107).  `get_or_404` runs before
the body is read; a null body then crashes at `if 'name' in data` with a
TypeError (membership test on None). -/
def update_author (db : DB) (id : Int) (data : Option AuthorPatch) :
    ApiResult × DB :=
  match findAuthor db id with
  | none => (.abort 404, db)
  | some a =>
    match data with
    | none => (.pyRaise "TypeError", db)
    | some p =>
      let a' := applyAuthorPatch p a
      let db' : DB :=
        { db with authors := db.authors.map (fun x => if x.id == id then a' else x) }
      (.ok 200 (.authorOne (authorToDict db' a')), db')

/-- `DELETE /api/authors/(id)` (app.py lines 109-114).  Deleting the row
triggers the `cascade="all, delete-orphan"` relationship (app.py line 41):
the commit removes the author row and every book row whose author_id equals
the deleted id, as one transaction. -/
def delete_author (db : DB) (id : Int) : ApiResult × DB :=
  match findAuthor db id with
  | none => (.abort 404, db)
  | some _ =>
    let db' : DB :=
      { authors := db.authors.filter (fun a => a.id != id),
        books := db.books.filter (fun b => b.author_id != id) }
    (.ok 200 (.message "Author and their books deleted"), db')

/-- `GET /api/books` (app.py lines 120-123). -/
def get_books (db : DB) : ApiResult :=
  .ok 200 (.bookList db.books.length (db.books.map bookToDict))

/-- `GET /api/books/(id)` (app.py lines 125-128). -/
def get_book (db : DB) (id : Int) : ApiResult :=
  match findBook db id with
  | none => .abort 404
  | some b => .ok 200 (.bookOne (bookToDict b))

/-- Python truthiness of `data.get('title')`: false for an absent key and
for the empty string. -/
def truthyStr : Option String → Bool
  | none => false
  | some s => s != ""

/-- Python truthiness of `data.get('author_id')`: false for an absent key
and for the integer 0. -/
def truthyInt : Option Int → Bool
  | none => false
  | some n => n != 0

/-- `POST /api/books` (app.py lines 130-148).  A null body, a falsy title
or a falsy author_id yields 400; a nonexistent author yields the 404
envelope; otherwise the row is inserted (created_at defaults to the
current time `now`) and the commit enforces the UNIQUE isbn constraint,
raising IntegrityError on a conflict. -/
def create_book (db : DB) (data : Option BookCreate) (now : Nat) :
    ApiResult × DB :=
  match data with
  | none => (.errEnvelope 400 "Title and author_id are required", db)
  | some d =>
    if !truthyStr d.title || !truthyInt d.author_id then
      (.errEnvelope 400 "Title and author_id are required", db)
    else
      match d.title, d.author_id with
      | some t, some aid =>
        if !authorExists db aid then
          (.errEnvelope 404 "Author not found", db)
        else
          let b : Book :=
            { id := nextBookId db, title := t, year := d.year,
              isbn := d.isbn, created_at := some now, author_id := aid }
          if isbnConflict db b.id b.isbn then (.pyRaise "IntegrityError", db)
          else
            let db' : DB := { db with books := db.books ++ [b] }
            (.ok 201 (.bookOne (bookToDict b)), db')
      | _, _ => (.errEnvelope 400 "Title and author_id are required", db)

/-- The in-place field updates of `update_book` (app.py lines 155-158).
Note that a supplied author_id is assigned without any existence check. -/
def applyBookPatch (p : BookPatch) (b : Book) : Book :=
  { b with
    title := match p.title with | some v => v | none => b.title
    author_id := match p.author_id with | some v => v | none => b.author_id
    year := match p.year with | some v => v | none => b.year
    isbn := match p.isbn with | some v => v | none => b.isbn }

/-- `PUT /api/books/(id)` (app.py lines 150-161).  `get_or_404` first; a
null body then crashes at `if 'title' in data`; otherwise the supplied
fields are assigned and the commit enforces only the UNIQUE isbn
constraint (SQLite does not enforce the foreign key on author_id). -/
def update_book (db : DB) (id : Int) (data : Option BookPatch) :
    ApiResult × DB :=
  match findBook db id with
  | none => (.abort 404, db)
  | some b =>
    match data with
    | none => (.pyRaise "TypeError", db)
    | some p =>
      let b' := applyBookPatch p b
      if isbnConflict db b.id b'.isbn then (.pyRaise "IntegrityError", db)
      else
        let db' : DB :=
          { db with books := db.books.map (fun x => if x.id == id then b' else x) }
        (.ok 200 (.bookOne (bookToDict b')), db')

/-- All suffixes of a character list, longest first, ending with `[]`. -/
def tailsOf : List Char → List (List Char)
  | [] => [[]]
  | c :: rest => (c :: rest) :: tailsOf rest

/-- SQL LIKE pattern matching over characters, case-insensitive (the
semantics of SQLAlchemy `ilike` on SQLite): in the pattern, `%` matches any
sequence of characters (expressed as matching the rest of the pattern
against some suffix of the subject), `_` matches exactly one character, and
any other character matches itself up to ASCII case. -/
def likeMatch : List Char → List Char → Bool
  | [], s => s.isEmpty
  | p :: ps, s =>
    if p = '%' then
      (tailsOf s).any (fun t => likeMatch ps t)
    else if p = '_' then
      (match s with
       | [] => false
       | _ :: s' => likeMatch ps s')
    else
      (match s with
       | [] => false
       | c :: s' => (p.toLower == c.toLower) && likeMatch ps s')

/-- `Book.title.ilike(f'%(title)%')` (app.py line 181): the filter string is
wrapped in `%...%` and matched as a LIKE pattern against the title. -/
def titleFilterMatches (t : String) (title : String) : Bool :=
  likeMatch ('%' :: (t.data ++ ['%'])) title.data

/-- True when the remaining characters of a Python integer literal are
well-formed after an initial digit: digits, with single underscores only
between digits. -/
def pyDigitsRest : List Char → Bool
  | [] => true
  | '_' :: rest =>
    (match rest with
     | [] => false
     | c :: rest' => c.isDigit && pyDigitsRest rest')
  | c :: rest => c.isDigit && pyDigitsRest rest

/-- Well-formed unsigned part of a Python integer literal: nonempty, starts
with a digit, underscores only between digits. -/
def pyDigits : List Char → Bool
  | [] => false
  | c :: rest => c.isDigit && pyDigitsRest rest

/-- Numeric value of a digit string, skipping underscores. -/
def pyDigitsVal (cs : List Char) : Nat :=
  cs.foldl (fun acc c => if c == '_' then acc else acc * 10 + (c.toNat - 48)) 0

/-- ASCII whitespace, as stripped by Python `int()` before parsing. -/
def isPySpace (c : Char) : Bool :=
  c == ' ' || c == '\t' || c == '\n' || c == '\r' || c == '\x0b' || c == '\x0c'

/-- Strip leading and trailing whitespace from a character list. -/
def trimChars (cs : List Char) : List Char :=
  ((cs.dropWhile isPySpace).reverse.dropWhile isPySpace).reverse

/-- The semantics of Python `int(s)` for a decimal string: surrounding
whitespace is stripped, an optional sign precedes the digits, underscores
are allowed between digits; `none` models the ValueError raised on any
other string. -/
def pyParseInt (s : String) : Option Int :=
  match trimChars s.data with
  | '+' :: rest => if pyDigits rest then some (pyDigitsVal rest) else none
  | '-' :: rest => if pyDigits rest then some (-(pyDigitsVal rest : Int)) else none
  | rest => if pyDigits rest then some (pyDigitsVal rest) else none

/-- `GET /api/books/search` (app.py lines 174-186).  `q` and `author_id`
are the raw query parameters (`none` when absent).  A truthy `q` adds the
`ilike` title filter; a truthy `author_id` is converted with an unguarded
`int(...)`, which raises ValueError on a non-integer string, and then added
as an exact-equality filter.  The filters compose by conjunction. -/
def search_books (db : DB) (q : Option String) (author_id : Option String) :
    ApiResult :=
  let afterTitle : List Book :=
    match q with
    | none => db.books
    | some t => if t = "" then db.books
                else db.books.filter (fun b => titleFilterMatches t b.title)
  match author_id with
  | none => .ok 200 (.bookList afterTitle.length (afterTitle.map bookToDict))
  | some s =>
    if s = "" then
      .ok 200 (.bookList afterTitle.length (afterTitle.map bookToDict))
    else
      match pyParseInt s with
      | none => .pyRaise "ValueError"
      | some n =>
        let results := afterTitle.filter (fun b => b.author_id == n)
        .ok 200 (.bookList results.length (results.map bookToDict))

/-- `DELETE /api/books/(id)` (app.py lines 163-168). -/
def delete_book (db : DB) (id : Int) : ApiResult × DB :=
  match findBook db id with
  | none => (.abort 404, db)
  | some _ =>
    let db' : DB := { db with books := db.books.filter (fun b => b.id != id) }
    (.ok 200 (.message "Book deleted"), db')

/-- The empty store, as after `db.create_all()` on a fresh database. -/
def emptyDB : DB := { authors := [], books := [] }

/-- `init_db` (app.py lines 343-361): when the author table is empty, two
sample authors are inserted and committed (receiving ids 1 and 2), then two
sample books linked to those ids are inserted and committed.  The sample
timestamps are an arbitrary commit time, taken as 0. -/
def init_db (db : DB) : DB :=
  if db.authors.length == 0 then
    let a1 : Author :=
      { id := nextAuthorId db, name := "Eric Matthes",
        bio := some "Python Expert", city := some "Chicago" }
    let dbA : DB := { db with authors := db.authors ++ [a1] }
    let a2 : Author :=
      { id := nextAuthorId dbA, name := "Miguel Grinberg",
        bio := some "Flask Guru", city := some "Dublin" }
    let dbB : DB := { dbA with authors := dbA.authors ++ [a2] }
    let b1 : Book :=
      { id := nextBookId dbB, title := "Python Crash Course",
        year := some 2019, isbn := some "978-1593279288",
        created_at := some 0, author_id := a1.id }
    let dbC : DB := { dbB with books := dbB.books ++ [b1] }
    let b2 : Book :=
      { id := nextBookId dbC, title := "Flask Web Development",
        year := some 2018, isbn := some "978-1491991732",
        created_at := some 0, author_id := a2.id }
    { dbC with books := dbC.books ++ [b2] }
  else db

/-- The store after first startup: `init_db` run on an empty database. -/
def seedDB : DB := init_db emptyDB

/-- Referential integrity: every book row references an existing author
row.  This is the no-orphaned-books invariant. -/
def noOrphans (db : DB) : Bool :=
  db.books.all (fun b => authorExists db b.author_id)

/-- Modelled from the spec: case-insensitive comparison of a candidate
occurrence, used to state substring containment the way the spec words it. -/
def beginsWithCI : List Char → List Char → Bool
  | [], _ => true
  | _ :: _, [] => false
  | c :: cs, d :: ds => (c.toLower == d.toLower) && beginsWithCI cs ds

/-- Modelled from the spec: `containsCI needle hay` is case-insensitive
substring containment of `needle` anywhere in `hay` — the relation the spec
asserts the title filter computes.  It is the spec-side definition used to
compare against the `ilike` behaviour of the source. -/
def containsCI : List Char → List Char → Bool
  | n, [] => beginsWithCI n []
  | n, hay@(_ :: rest) => beginsWithCI n hay || containsCI n rest

/-- Observation: the `count` field of a book-list response, when the
response is one. -/
def listedCount : ApiResult → Option Nat
  | .ok _ (.bookList n _) => some n
  | _ => none

/-- Observation: the ids of the serialized books of a book-list response. -/
def listedBookIds : ApiResult → Option (List Int)
  | .ok _ (.bookList _ ds) => some (ds.map (fun d => d.id))
  | _ => none

/-! ## Helper lemmas -/

theorem findAuthor_eq_none {db : DB} {id : Int}
    (h : authorExists db id = false) : findAuthor db id = none := by
  rw [findAuthor, List.find?_eq_none]
  intro a ha
  rw [authorExists] at h
  rw [List.any_eq_false] at h
  exact h a ha

theorem findBook_eq_none {db : DB} {id : Int}
    (h : bookExists db id = false) : findBook db id = none := by
  rw [findBook, List.find?_eq_none]
  intro b hb
  rw [bookExists] at h
  rw [List.any_eq_false] at h
  exact h b hb

theorem findAuthor_of_exists {db : DB} {id : Int}
    (h : authorExists db id = true) : ∃ a, findAuthor db id = some a := by
  rw [authorExists, List.any_eq_true] at h
  obtain ⟨a, ha, hpa⟩ := h
  have hs : (findAuthor db id).isSome := by
    rw [findAuthor, List.find?_isSome]
    exact ⟨a, ha, hpa⟩
  exact Option.isSome_iff_exists.mp hs

theorem findBook_of_exists {db : DB} {id : Int}
    (h : bookExists db id = true) : ∃ b, findBook db id = some b := by
  rw [bookExists, List.any_eq_true] at h
  obtain ⟨b, hb, hpb⟩ := h
  have hs : (findBook db id).isSome := by
    rw [findBook, List.find?_isSome]
    exact ⟨b, hb, hpb⟩
  exact Option.isSome_iff_exists.mp hs

theorem foldl_max_le (l : List Int) (a : Int) : a ≤ l.foldl max a := by
  induction l generalizing a with
  | nil => simp
  | cons x xs ih =>
    rw [List.foldl_cons]
    exact le_trans (le_max_left a x) (ih (max a x))

theorem mem_le_foldl_max (l : List Int) (a x : Int) (hx : x ∈ l) :
    x ≤ l.foldl max a := by
  induction l generalizing a with
  | nil => simp at hx
  | cons y ys ih =>
    rw [List.foldl_cons]
    rcases List.mem_cons.mp hx with h | h
    · subst h
      exact le_trans (le_max_right a x) (foldl_max_le ys _)
    · exact ih _ h

theorem book_id_lt_next (db : DB) (b : Book) (hb : b ∈ db.books) :
    b.id < nextBookId db := by
  have hle : b.id ≤ (db.books.map (fun b => b.id)).foldl max 0 :=
    mem_le_foldl_max _ 0 _ (List.mem_map_of_mem _ hb)
  rw [nextBookId]
  omega

theorem find?_replace {α : Type _} (p : α → Bool) (r : α) (l : List α)
    (b : α) (hfind : l.find? p = some b) (hr : p r = true) :
    (l.map (fun x => if p x then r else x)).find? p = some r := by
  induction l with
  | nil => simp at hfind
  | cons x xs ih =>
    cases hx : p x with
    | false =>
      rw [List.find?_cons_of_neg _ (by simp [hx])] at hfind
      have hmap : (x :: xs).map (fun y => if p y then r else y) =
          x :: xs.map (fun y => if p y then r else y) := by simp [hx]
      rw [hmap, List.find?_cons_of_neg _ (by simp [hx])]
      exact ih hfind
    | true =>
      have hmap : (x :: xs).map (fun y => if p y then r else y) =
          r :: xs.map (fun y => if p y then r else y) := by simp [hx]
      rw [hmap, List.find?_cons_of_pos _ hr]

theorem mem_replace {α : Type _} (p : α → Bool) (r : α) {l : List α}
    {x : α} (hx : x ∈ l) (hpx : p x = false) :
    x ∈ l.map (fun y => if p y then r else y) := by
  have h2 := List.mem_map_of_mem (fun y => if p y then r else y) hx
  simpa [hpx] using h2

/-! ## Theorems -/

/-- Claim C1: deleting an existing author removes, in one step of the
transition function, exactly the author row and every book whose author_id
equals the deleted id; afterwards the author is gone, no book with that
author_id remains, and (when the store had no orphaned books before) no
orphaned book exists. -/
theorem c1_delete_author_cascade (db : DB) (id : Int)
    (hex : authorExists db id = true) (hwf : noOrphans db = true) :
    ∃ db', delete_author db id =
        (.ok 200 (.message "Author and their books deleted"), db') ∧
      db'.authors = db.authors.filter (fun a => a.id != id) ∧
      db'.books = db.books.filter (fun b => b.author_id != id) ∧
      authorExists db' id = false ∧
      db'.books.all (fun b => b.author_id != id) = true ∧
      noOrphans db' = true := by
  obtain ⟨a, ha⟩ := findAuthor_of_exists hex
  refine ⟨{ authors := db.authors.filter (fun a => a.id != id),
            books := db.books.filter (fun b => b.author_id != id) },
          ?_, rfl, rfl, ?_, ?_, ?_⟩
  · rw [delete_author, ha]
  · rw [authorExists, List.any_eq_false]
    intro a' ha'
    rw [List.mem_filter] at ha'
    simpa using ha'.2
  · rw [List.all_eq_true]
    intro b hb
    rw [List.mem_filter] at hb
    exact hb.2
  · rw [noOrphans, List.all_eq_true]
    intro b hb
    rw [List.mem_filter] at hb
    rw [noOrphans, List.all_eq_true] at hwf
    have hauth := hwf b hb.1
    rw [authorExists, List.any_eq_true] at hauth
    obtain ⟨a0, ha0, hpa0⟩ := hauth
    rw [authorExists, List.any_eq_true]
    refine ⟨a0, ?_, hpa0⟩
    rw [List.mem_filter]
    refine ⟨ha0, ?_⟩
    have h1 : a0.id = b.author_id := by simpa using hpa0
    have h2 : ¬(b.author_id = id) := by simpa using hb.2
    simp [h1, h2]

/-- Claim C1 witness: deleting author 1 of the seeded store. -/
theorem c1_witness :
    authorExists seedDB 1 = true ∧ noOrphans seedDB = true ∧
    ∃ db', delete_author seedDB 1 =
        (.ok 200 (.message "Author and their books deleted"), db') ∧
      db'.authors = seedDB.authors.filter (fun a => a.id != 1) ∧
      db'.books = seedDB.books.filter (fun b => b.author_id != 1) ∧
      authorExists db' 1 = false ∧
      db'.books.all (fun b => b.author_id != 1) = true ∧
      noOrphans db' = true :=
  ⟨by decide, by decide, c1_delete_author_cascade seedDB 1 (by decide) (by decide)⟩

/-- Claim C8: on first startup with an empty store, initialization seeds
exactly Author(1, Eric Matthes), Author(2, Miguel Grinberg),
Book(1, Python Crash Course, author 1) and Book(2, Flask Web Development,
author 2); listing books on the seeded state returns count 2, and deleting
author 1 then listing books returns count 1 containing only book id 2. -/
theorem c8_seed_and_cascade_scenario :
    seedDB.authors.map (fun a => (a.id, a.name)) =
      [(1, "Eric Matthes"), (2, "Miguel Grinberg")] ∧
    seedDB.books.map (fun b => (b.id, b.title, b.author_id)) =
      [(1, "Python Crash Course", 1), (2, "Flask Web Development", 2)] ∧
    listedCount (get_books seedDB) = some 2 ∧
    listedCount (get_books (delete_author seedDB 1).2) = some 1 ∧
    listedBookIds (get_books (delete_author seedDB 1).2) = some [2] := by
  decide

/-- Claim C2 (evaluation at the failing input): updating book 1 of the
seeded store with author_id 999 succeeds with HTTP 200 and commits, leaving
a stored book whose author_id references no author: the store reaches an
orphaned state, contradicting the spec requirement that such an update
fail and leave the book unchanged. -/
theorem c2_update_book_commits_dangling_author :
    isSuccess (update_book seedDB 1
      (some { title := none, author_id := some 999,
              year := none, isbn := none })).1 = true ∧
    ((findBook (update_book seedDB 1
        (some { title := none, author_id := some 999,
                year := none, isbn := none })).2 1).map
      (fun b => b.author_id)) = some 999 ∧
    authorExists (update_book seedDB 1
      (some { title := none, author_id := some 999,
              year := none, isbn := none })).2 999 = false ∧
    noOrphans (update_book seedDB 1
      (some { title := none, author_id := some 999,
              year := none, isbn := none })).2 = false := by
  decide

/-- Claim C3 counterexample: fetching a nonexistent author id yields HTTP
404, but through a bare framework abort whose body is not the
`\x7bsuccess: false, error\x7d` envelope, refuting the claim that every
not-found response carries the envelope shape. -/
theorem c3_counterexample_no_envelope :
    authorExists seedDB 99 = false ∧
    httpStatus (get_author seedDB 99) = 404 ∧
    isErrEnvelope (get_author seedDB 99) = false := by
  decide

/-- Claim C4 counterexample: a create-book request with author_id 0, an id
referencing no author, fails with the 400 validation envelope rather than
the claimed NotFound, because `not data.get('author_id')` treats the falsy
integer 0 as a missing field.  The store is unchanged. -/
theorem c4_counterexample_author_id_zero :
    authorExists seedDB 0 = false ∧
    create_book seedDB
        (some { title := some "New Book", author_id := some 0,
                year := none, isbn := none }) 5 =
      (.errEnvelope 400 "Title and author_id are required", seedDB) ∧
    httpStatus (create_book seedDB
        (some { title := some "New Book", author_id := some 0,
                year := none, isbn := none }) 5).1 ≠ 404 := by
  decide

/-- Claim C6 counterexample: searching the seeded store with the title
filter `F%k` returns book 2 (Flask Web Development) because `%` acts as a
LIKE wildcard inside the filter, although `F%k` is not a case-insensitive
substring of that title; this refutes the claim that a book is returned
iff its title contains the filter string as a substring. -/
theorem c6_counterexample_wildcard :
    listedBookIds (search_books seedDB (some "F%k") none) = some [2] ∧
    ((findBook seedDB 2).map (fun b => b.title)) =
      some "Flask Web Development" ∧
    containsCI "F%k".data "Flask Web Development".data = false := by
  decide

/-- Claim C3 as amended: every get, update or delete on a nonexistent
Author or Book id responds with HTTP 404, but through the framework abort
raised by `get_or_404`, whose body is the framework default not-found page
rather than the `\x7bsuccess: false, error\x7d` envelope (the application
registers no 404 error handler); the store is unchanged. -/
theorem c3_amended_abort_404 (db : DB) (id : Int)
    (dataA : Option AuthorPatch) (dataB : Option BookPatch)
    (ha : authorExists db id = false) (hb : bookExists db id = false) :
    get_author db id = .abort 404 ∧
    update_author db id dataA = (.abort 404, db) ∧
    delete_author db id = (.abort 404, db) ∧
    get_book db id = .abort 404 ∧
    update_book db id dataB = (.abort 404, db) ∧
    delete_book db id = (.abort 404, db) ∧
    isErrEnvelope (ApiResult.abort 404) = false ∧
    httpStatus (ApiResult.abort 404) = 404 := by
  have hfa := findAuthor_eq_none ha
  have hfb := findBook_eq_none hb
  refine ⟨?_, ?_, ?_, ?_, ?_, ?_, rfl, rfl⟩
  · rw [get_author, hfa]
  · rw [update_author, hfa]
  · rw [delete_author, hfa]
  · rw [get_book, hfb]
  · rw [update_book, hfb]
  · rw [delete_book, hfb]

/-- Claim C3 (amended) witness: id 99 in the seeded store. -/
theorem c3_amended_witness :
    authorExists seedDB 99 = false ∧ bookExists seedDB 99 = false ∧
    (get_author seedDB 99 = .abort 404 ∧
     update_author seedDB 99 none = (.abort 404, seedDB) ∧
     delete_author seedDB 99 = (.abort 404, seedDB) ∧
     get_book seedDB 99 = .abort 404 ∧
     update_book seedDB 99 none = (.abort 404, seedDB) ∧
     delete_book seedDB 99 = (.abort 404, seedDB) ∧
     isErrEnvelope (ApiResult.abort 404) = false ∧
     httpStatus (ApiResult.abort 404) = 404) :=
  ⟨by decide, by decide,
   c3_amended_abort_404 seedDB 99 none none (by decide) (by decide)⟩

/-- Claim C9: a PUT on an existing author or book id whose parsed body is
null crashes at the membership test `if key in data` with a TypeError — an
unhandled exception, not any structured error envelope — and leaves the
store unchanged. -/
theorem c9_null_body_update_raises :
    (∀ (db : DB) (id : Int) (a : Author), findAuthor db id = some a →
       update_author db id none = (.pyRaise "TypeError", db) ∧
       isErrEnvelope (update_author db id none).1 = false) ∧
    (∀ (db : DB) (id : Int) (b : Book), findBook db id = some b →
       update_book db id none = (.pyRaise "TypeError", db) ∧
       isErrEnvelope (update_book db id none).1 = false) := by
  constructor
  · intro db id a h
    have he : update_author db id none = (.pyRaise "TypeError", db) := by
      rw [update_author, h]
    exact ⟨he, by rw [he]; rfl⟩
  · intro db id b h
    have he : update_book db id none = (.pyRaise "TypeError", db) := by
      rw [update_book, h]
    exact ⟨he, by rw [he]; rfl⟩

/-- Claim C9 witness: null-body PUT on author 1 and book 1 of the seeded
store. -/
theorem c9_witness :
    (update_author seedDB 1 none = (.pyRaise "TypeError", seedDB) ∧
     isErrEnvelope (update_author seedDB 1 none).1 = false) ∧
    (update_book seedDB 1 none = (.pyRaise "TypeError", seedDB) ∧
     isErrEnvelope (update_book seedDB 1 none).1 = false) :=
  ⟨c9_null_body_update_raises.1 seedDB 1
      { id := 1, name := "Eric Matthes", bio := some "Python Expert",
        city := some "Chicago" } (by decide),
   c9_null_body_update_raises.2 seedDB 1
      { id := 1, title := "Python Crash Course", year := some 2019,
        isbn := some "978-1593279288", created_at := some 0,
        author_id := 1 } (by decide)⟩

/-- Claim C10: a search whose author_id query parameter is a non-empty
string that is not a valid Python integer literal raises ValueError at the
unguarded `int(author_id)` conversion — an unhandled exception, not a
success or error envelope. -/
theorem c10_search_nonint_author_raises (db : DB) (q : Option String)
    (s : String) (hne : s ≠ "") (hbad : pyParseInt s = none) :
    search_books db q (some s) = .pyRaise "ValueError" ∧
    isSuccess (search_books db q (some s)) = false ∧
    isErrEnvelope (search_books db q (some s)) = false := by
  have he : search_books db q (some s) = .pyRaise "ValueError" := by
    simp [search_books, hne, hbad]
  exact ⟨he, by rw [he]; rfl, by rw [he]; rfl⟩

/-- Claim C10 witness: the parameter string `abc` on the seeded store. -/
theorem c10_witness :
    "abc" ≠ "" ∧ pyParseInt "abc" = none ∧
    search_books seedDB (some "flask") (some "abc") = .pyRaise "ValueError" :=
  ⟨by decide, by decide,
   (c10_search_nonint_author_raises seedDB (some "flask") "abc"
      (by decide) (by decide)).1⟩

/-- Claim C4 as amended: a create-book request whose author_id references
no existing author fails and persists no book — with the 404 NotFound
envelope when the author_id is a nonzero integer (and the title is
present), but with the 400 validation envelope when the author_id is 0,
because the falsy-value check treats 0 as a missing field.  In every case
the store is returned unchanged. -/
theorem c4_amended_create_book_absent_author (db : DB) (d : BookCreate)
    (now : Nat) (n : Int)
    (haid : d.author_id = some n) (hex : authorExists db n = false) :
    (truthyStr d.title = false ∨ n = 0 →
       create_book db (some d) now =
         (.errEnvelope 400 "Title and author_id are required", db)) ∧
    (truthyStr d.title = true → n ≠ 0 →
       create_book db (some d) now =
         (.errEnvelope 404 "Author not found", db)) := by
  constructor
  · rintro (h | h)
    · simp [create_book, h]
    · simp [create_book, haid, h, truthyInt]
  · intro ht hn
    have htr : truthyInt d.author_id = true := by
      rw [haid]
      simpa [truthyInt] using hn
    obtain ⟨t, hTitle⟩ : ∃ t, d.title = some t := by
      cases h : d.title with
      | none => rw [h] at ht; simp [truthyStr] at ht
      | some t => exact ⟨t, rfl⟩
    rw [hTitle] at ht
    rw [haid] at htr
    simp [create_book, hTitle, haid, hex, ht, htr]

/-- Claim C4 (amended) witness: author id 5 is absent from the seeded
store and a well-formed create request referencing it gets the 404
envelope and leaves the store unchanged. -/
theorem c4_amended_witness :
    authorExists seedDB 5 = false ∧
    create_book seedDB
        (some { title := some "T", author_id := some 5,
                year := none, isbn := none }) 0 =
      (.errEnvelope 404 "Author not found", seedDB) :=
  ⟨by decide,
   (c4_amended_create_book_absent_author seedDB
      { title := some "T", author_id := some 5, year := none, isbn := none }
      0 5 rfl (by decide)).2 (by decide) (by decide)⟩

/-- Claim C7: creating a book whose isbn equals the isbn of a book already
in the store fails — the commit violates the UNIQUE constraint on
`book.isbn` — and the store is unchanged, whichever validation branch the
request takes. -/
theorem c7_duplicate_isbn_create_fails (db : DB) (d : BookCreate)
    (now : Nat) (s : String) (b0 : Book)
    (hb0 : b0 ∈ db.books) (hb0isbn : b0.isbn = some s)
    (hisbn : d.isbn = some s) :
    isSuccess (create_book db (some d) now).1 = false ∧
    (create_book db (some d) now).2 = db := by
  by_cases hg : (!truthyStr d.title || !truthyInt d.author_id) = true
  · constructor <;> simp [create_book, hg, isSuccess]
  · have hg2 : truthyStr d.title = true ∧ truthyInt d.author_id = true := by
      cases h1 : truthyStr d.title with
      | false => exact absurd (by simp [h1]) hg
      | true =>
        cases h2 : truthyInt d.author_id with
        | false => exact absurd (by simp [h2]) hg
        | true => exact ⟨rfl, rfl⟩
    obtain ⟨t, hTitle⟩ : ∃ t, d.title = some t := by
      cases h : d.title with
      | none => rw [h] at hg2; simp [truthyStr] at hg2
      | some t => exact ⟨t, rfl⟩
    obtain ⟨n, hAid⟩ : ∃ n, d.author_id = some n := by
      cases h : d.author_id with
      | none => rw [h] at hg2; simp [truthyInt] at hg2
      | some n => exact ⟨n, rfl⟩
    have hconf : isbnConflict db (nextBookId db) (some s) = true := by
      rw [isbnConflict, List.any_eq_true]
      refine ⟨b0, hb0, ?_⟩
      have hlt := book_id_lt_next db b0 hb0
      have hne : (b0.id != nextBookId db) = true := by
        simp only [bne_iff_ne, ne_eq]
        omega
      simp [hb0isbn, hne]
    have ht' : truthyStr (some t) = true := hTitle ▸ hg2.1
    have ha' : truthyInt (some n) = true := hAid ▸ hg2.2
    by_cases hauth : authorExists db n
    · constructor <;>
        simp [create_book, isSuccess, ht', ha', hTitle, hAid, hauth,
          hisbn, hconf]
    · constructor <;>
        simp [create_book, isSuccess, ht', ha', hTitle, hAid, hauth]

/-- Claim C7 witness: recreating the seeded isbn 978-1593279288 fails and
leaves the seeded store unchanged. -/
theorem c7_witness :
    (∃ b0, b0 ∈ seedDB.books ∧ b0.isbn = some "978-1593279288") ∧
    isSuccess (create_book seedDB
      (some { title := some "Copy", author_id := some 1,
              year := none, isbn := some "978-1593279288" }) 3).1 = false ∧
    (create_book seedDB
      (some { title := some "Copy", author_id := some 1,
              year := none, isbn := some "978-1593279288" }) 3).2 = seedDB :=
  ⟨⟨{ id := 1, title := "Python Crash Course", year := some 2019,
      isbn := some "978-1593279288", created_at := some 0, author_id := 1 },
    by decide, rfl⟩,
   c7_duplicate_isbn_create_fails seedDB
      { title := some "Copy", author_id := some 1, year := none,
        isbn := some "978-1593279288" } 3 "978-1593279288"
      { id := 1, title := "Python Crash Course", year := some 2019,
        isbn := some "978-1593279288", created_at := some 0, author_id := 1 }
      (by decide) rfl rfl⟩

/-- Claim C5: partial-update semantics.  Updating an existing author or
book mutates only the fields whose keys are present in the payload: the
other table is untouched, rows with a different id survive unchanged, and
the row with the updated id keeps its id, its created_at, and the current
value of every field absent from the payload.  (When the commit fails on
an isbn conflict nothing at all changes, which also satisfies the frame.) -/
theorem c5_partial_update_frame :
    (∀ (db : DB) (id : Int) (p : BookPatch) (b : Book),
       findBook db id = some b →
       (update_book db id (some p)).2.authors = db.authors ∧
       (∀ x ∈ db.books, ¬(x.id = id) →
          x ∈ (update_book db id (some p)).2.books) ∧
       ∃ b', findBook (update_book db id (some p)).2 id = some b' ∧
         b'.id = b.id ∧
         b'.created_at = b.created_at ∧
         (p.title = none → b'.title = b.title) ∧
         (p.author_id = none → b'.author_id = b.author_id) ∧
         (p.year = none → b'.year = b.year) ∧
         (p.isbn = none → b'.isbn = b.isbn)) ∧
    (∀ (db : DB) (id : Int) (p : AuthorPatch) (a : Author),
       findAuthor db id = some a →
       (update_author db id (some p)).2.books = db.books ∧
       (∀ x ∈ db.authors, ¬(x.id = id) →
          x ∈ (update_author db id (some p)).2.authors) ∧
       ∃ a', findAuthor (update_author db id (some p)).2 id = some a' ∧
         a'.id = a.id ∧
         (p.name = none → a'.name = a.name) ∧
         (p.bio = none → a'.bio = a.bio) ∧
         (p.city = none → a'.city = a.city)) := by
  constructor
  · intro db id p b hfind
    have hfind' : db.books.find? (fun x => x.id == id) = some b := hfind
    have hbid : (b.id == id) = true :=
      List.find?_some (p := fun x : Book => x.id == id) hfind'
    have hid' : (applyBookPatch p b).id = b.id := rfl
    by_cases hc : isbnConflict db b.id (applyBookPatch p b).isbn = true
    · have he : update_book db id (some p) = (.pyRaise "IntegrityError", db) := by
        rw [update_book, hfind]
        simp [hc]
      rw [he]
      refine ⟨rfl, fun x hx _ => hx, b, hfind, rfl, rfl,
        fun _ => rfl, fun _ => rfl, fun _ => rfl, fun _ => rfl⟩
    · have he : update_book db id (some p) =
          (.ok 200 (.bookOne (bookToDict (applyBookPatch p b))),
           { db with
              books := db.books.map fun x =>
                if x.id == id then applyBookPatch p b else x }) := by
        rw [update_book, hfind]
        simp [hc]
      rw [he]
      refine ⟨rfl, ?_, applyBookPatch p b, ?_, rfl, rfl, ?_, ?_, ?_, ?_⟩
      · intro x hx hne
        exact mem_replace _ _ hx (by simpa using hne)
      · exact find?_replace _ _ _ b hfind' (by rw [hid']; exact hbid)
      · intro h; simp [applyBookPatch, h]
      · intro h; simp [applyBookPatch, h]
      · intro h; simp [applyBookPatch, h]
      · intro h; simp [applyBookPatch, h]
  · intro db id p a hfind
    have hfind' : db.authors.find? (fun x => x.id == id) = some a := hfind
    have haid : (a.id == id) = true :=
      List.find?_some (p := fun x : Author => x.id == id) hfind'
    have hid' : (applyAuthorPatch p a).id = a.id := rfl
    have he : (update_author db id (some p)).2 =
        { db with
           authors := db.authors.map fun x =>
             if x.id == id then applyAuthorPatch p a else x } := by
      rw [update_author, hfind]
    rw [he]
    refine ⟨rfl, ?_, applyAuthorPatch p a, ?_, rfl, ?_, ?_, ?_⟩
    · intro x hx hne
      exact mem_replace _ _ hx (by simpa using hne)
    · exact find?_replace _ _ _ a hfind' (by rw [hid']; exact haid)
    · intro h; simp [applyAuthorPatch, h]
    · intro h; simp [applyAuthorPatch, h]
    · intro h; simp [applyAuthorPatch, h]

/-- Claim C5 witness: updating book 1 of the seeded store with only a year
leaves title, isbn, author_id and created_at at their stored values, and
book 2 untouched. -/
theorem c5_witness :
    findBook seedDB 1 = some
      { id := 1, title := "Python Crash Course", year := some 2019,
        isbn := some "978-1593279288", created_at := some 0,
        author_id := 1 } ∧
    ∃ b', findBook (update_book seedDB 1
        (some { title := none, author_id := none,
                year := some (some 2023), isbn := none })).2 1 = some b' ∧
      b'.id = 1 ∧ b'.created_at = some 0 ∧
      b'.title = "Python Crash Course" ∧
      b'.author_id = 1 ∧
      b'.isbn = some "978-1593279288" := by
  have hb : findBook seedDB 1 = some
      { id := 1, title := "Python Crash Course", year := some 2019,
        isbn := some "978-1593279288", created_at := some 0,
        author_id := 1 } := by decide
  have h := (c5_partial_update_frame.1 seedDB 1
      { title := none, author_id := none,
        year := some (some 2023), isbn := none } _ hb).2.2
  obtain ⟨b', hfind, hid, hcr, hti, hai, _, his⟩ := h
  exact ⟨hb, b', hfind, hid, hcr, hti rfl, hai rfl, his rfl⟩

/-- A LIKE filter string with no `%` and no `_` wildcard characters. -/
def noWildcards (cs : List Char) : Bool :=
  cs.all (fun c => !(c == '%') && !(c == '_'))

theorem filter_filter_comp {α : Type _} (f g : α → Bool) (l : List α) :
    (l.filter f).filter g = l.filter (fun x => f x && g x) := by
  induction l with
  | nil => rfl
  | cons x xs ih =>
    cases hf : f x <;> cases hg : g x <;>
      simp [List.filter_cons, hf, hg, ih]

theorem likeMatch_percent_only (s : List Char) : likeMatch ['%'] s = true := by
  have h : ∀ cs : List Char, (tailsOf cs).any (fun t => t.isEmpty) = true := by
    intro cs
    induction cs with
    | nil => rfl
    | cons c rest ih => simp [tailsOf, ih]
  simp [likeMatch, h s]

theorem likeMatch_lit_percent (q : List Char) (hq : noWildcards q = true) :
    ∀ s : List Char, likeMatch (q ++ ['%']) s = beginsWithCI q s := by
  induction q with
  | nil =>
    intro s
    simp [likeMatch_percent_only, beginsWithCI]
  | cons c q' ih =>
    intro s
    rw [noWildcards, List.all_cons] at hq
    have hc : (!(c == '%') && !(c == '_')) = true := by
      exact (Bool.and_eq_true _ _).mp hq |>.1
    have hcp : ¬(c = '%') := by simpa using ((Bool.and_eq_true _ _).mp hc).1
    have hcu : ¬(c = '_') := by simpa using ((Bool.and_eq_true _ _).mp hc).2
    have hq' : noWildcards q' = true := ((Bool.and_eq_true _ _).mp hq).2
    cases s with
    | nil => simp [likeMatch, hcp, hcu, beginsWithCI]
    | cons d s' => simp [likeMatch, hcp, hcu, beginsWithCI, ih hq' s']

theorem tails_any_beginsWith (q : List Char) :
    ∀ s : List Char, (tailsOf s).any (fun t => beginsWithCI q t) = containsCI q s := by
  intro s
  induction s with
  | nil => simp [tailsOf, containsCI]
  | cons c rest ih => simp [tailsOf, containsCI, ih]

theorem likeMatch_wrap_eq_containsCI (q : List Char) (hq : noWildcards q = true)
    (s : List Char) : likeMatch ('%' :: (q ++ ['%'])) s = containsCI q s := by
  have h1 : likeMatch ('%' :: (q ++ ['%'])) s =
      (tailsOf s).any (fun t => likeMatch (q ++ ['%']) t) := by
    simp [likeMatch]
  rw [h1]
  have h2 : (fun t => likeMatch (q ++ ['%']) t) =
      (fun t => beginsWithCI q t) :=
    funext (fun t => likeMatch_lit_percent q hq t)
  rw [h2, tails_any_beginsWith]

/-- Claim C6 as amended: the search route composes its filters by
conjunction — no filters returns all books, each filter alone restricts to
its matches, both together restrict to the intersection — but the title
match is SQL LIKE containment of the filter inside the title, not plain
substring containment: `%` and `_` inside the filter act as wildcards.
For filter strings containing no wildcard character, the LIKE match
coincides with case-insensitive substring containment, recovering the
spec reading on that fragment. -/
theorem c6_amended_search_filters (db : DB) (t u w : String) (n : Int) :
    (search_books db none none =
       .ok 200 (.bookList db.books.length (db.books.map bookToDict))) ∧
    (t ≠ "" →
       search_books db (some t) none =
         (let l := db.books.filter (fun b => titleFilterMatches t b.title)
          .ok 200 (.bookList l.length (l.map bookToDict)))) ∧
    (u ≠ "" → pyParseInt u = some n →
       search_books db none (some u) =
         (let l := db.books.filter (fun b => b.author_id == n)
          .ok 200 (.bookList l.length (l.map bookToDict)))) ∧
    (t ≠ "" → u ≠ "" → pyParseInt u = some n →
       search_books db (some t) (some u) =
         (let l := db.books.filter
            (fun b => titleFilterMatches t b.title && b.author_id == n)
          .ok 200 (.bookList l.length (l.map bookToDict)))) ∧
    (noWildcards t.data = true →
       titleFilterMatches t w = containsCI t.data w.data) := by
  refine ⟨rfl, ?_, ?_, ?_, ?_⟩
  · intro ht
    simp [search_books, ht]
  · intro hu hn
    simp [search_books, hu, hn]
  · intro ht hu hn
    simp [search_books, ht, hu, hn, filter_filter_comp]
    have hcomm : (fun b : Book => b.author_id == n && titleFilterMatches t b.title)
        = (fun b : Book => titleFilterMatches t b.title && b.author_id == n) :=
      funext fun b => Bool.and_comm _ _
    rw [hcomm]
    exact ⟨rfl, rfl⟩
  · intro hw
    exact likeMatch_wrap_eq_containsCI t.data hw w.data

/-- Claim C6 (amended) witness: on the seeded store, filter `flask` with
author 2 returns exactly book 2, and `flask`, being wildcard-free, matches
exactly as case-insensitive substring containment. -/
theorem c6_amended_witness :
    search_books seedDB (some "flask") (some "2") =
      (let l := seedDB.books.filter
         (fun b => titleFilterMatches "flask" b.title && b.author_id == 2)
       .ok 200 (.bookList l.length (l.map bookToDict))) ∧
    titleFilterMatches "flask" "Flask Web Development" =
      containsCI "flask".data "Flask Web Development".data :=
  ⟨(c6_amended_search_filters seedDB "flask" "2" "Flask Web Development" 2).2.2.2.1
      (by decide) (by decide) (by decide),
   (c6_amended_search_filters seedDB "flask" "2" "Flask Web Development" 2).2.2.2.2
      (by decide)⟩

end FlaskApi
